import Mathlib

/-!
# Verification of the leaderboard client core logic

Shallow embedding of the client-side state and handlers of `src/App.js`
(a React leaderboard front end).  Network interactions are modelled by
oracle parameters: each handler takes the terminal outcome(s) of the
request(s) it issues, and returns the new client state together with an
`Effects` record describing the observable side effects of the handler
(how many requests it issued, whether it triggered a list refresh, and
which status messages it set).
-/

/-- A player as delivered by the remote service (`_id`, `name`, `points`,
`rank` fields of the JSON objects consumed by `App.js`). -/
structure Player where
  _id : String
  name : String
  points : Nat
  rank : Nat
deriving Repr, DecidableEq

/-- A failed request, as seen by an axios `catch` block: the error
`message` string, and the optional service detail text found at
`err.response.data.message`. -/
structure NetErr where
  message : String
  responseDataMessage : Option String
deriving Repr, DecidableEq

/-- The state held by the `App` component: one field per `useState` hook
(App.js lines 36-50).  The selection is a string id, with the empty
string standing for the absent selection, exactly as in the source. -/
structure AppState where
  users : List Player
  selectedUserId : String
  newUserName : String
  message : String
  isLoading : Bool
  error : Option String
  isClearScoresModalOpen : Bool
  isClearUsersModalOpen : Bool
  isAddUserModalOpen : Bool
  isDeleteUserModalOpen : Bool
  userToDelete : Option Player
  isActionsMenuOpen : Bool
deriving Repr, DecidableEq

/-- Observable side effects of one handler invocation: the number of
network requests it issued, whether it called `fetchUsers()` to refresh
the list, and the list of status messages it passed to `setMessage`. -/
structure Effects where
  requests : Nat := 0
  refreshed : Bool := false
  notices : List String := []
deriving Repr, DecidableEq

/-- The visual reordering applied by the `Podium` component
(App.js lines 13-16): `podiumOrder = [1, 0, 2]`. -/
def podiumOrder : List Nat := [1, 0, 2]

/-- `Podium`: maps each index of `podiumOrder` to the corresponding entry
of `topUsers` and drops the missing ones, embedding
`podiumOrder.map(index => topUsers[index]).filter(Boolean)`
(App.js line 16; an out-of-range JS index yields `undefined`, which
`filter(Boolean)` removes, hence the `Option`-valued lookup). -/
def podiumUsers (topUsers : List Player) : List Player :=
  (podiumOrder.map (fun index => topUsers[index]?)).filterMap id

/-- `topThreeUsers = users.slice(0, 3)` (App.js line 235). -/
def topThreeUsers (users : List Player) : List Player :=
  users.take 3

/-- The podium view as rendered by `App`: the `Podium` component applied
to `topThreeUsers` (App.js line 419). -/
def podiumDisplay (users : List Player) : List Player :=
  podiumUsers (topThreeUsers users)

/-- The connectivity-failure banner text set by `fetchUsers` when
`err.message === 'Network Error'` (App.js line 76). -/
def fetchNetworkErrorText : String :=
  "Network Error: Cannot connect to the server. Please make sure your Node.js backend is running on port 5000 and there are no errors in its terminal."

/-- The banner text set by `fetchUsers` for any other failure
(App.js line 78). -/
def fetchOtherErrorText (err : NetErr) : String :=
  "An error occurred: " ++ err.message

/-- Terminal state of a successful `fetchUsers` call (App.js lines 57-72
plus the `finally`): the list is replaced by the response data, the error
banner is cleared, and the selection is snapped per the functional
updater at lines 63-72: if the list is non-empty and the previous id is
empty or not found in the new data, select the first element id;
if the list is empty, clear the selection. -/
def fetchUsersSuccess (s : AppState) (data : List Player) : AppState :=
  match data with
  | [] =>
      { s with users := [], selectedUserId := "", error := none, isLoading := false }
  | first :: rest =>
      let newSel :=
        if s.selectedUserId == "" || ((first :: rest).find? (fun u => u._id == s.selectedUserId)).isNone
        then first._id
        else s.selectedUserId
      { s with users := first :: rest, selectedUserId := newSel, error := none, isLoading := false }

/-- Terminal state of a failed `fetchUsers` call (App.js lines 73-82):
the user list and selection are left untouched, and the error banner
distinguishes the connectivity failure from every other failure. -/
def fetchUsersFailure (s : AppState) (err : NetErr) : AppState :=
  if err.message = "Network Error"
  then { s with error := some fetchNetworkErrorText, isLoading := false }
  else { s with error := some (fetchOtherErrorText err), isLoading := false }

/-- The aggregate success message of the bulk generator
(App.js line 123). -/
def generateSuccessText (createdCount : Nat) : String :=
  "Generated " ++ toString createdCount ++ " new random players!"

/-- The aggregate total-failure message of the bulk generator
(App.js line 126). -/
def generateFailureText : String :=
  "Failed to generate new users. They might already exist."

/-- `handleGenerateTenUsers` (App.js lines 96-133).  The handler fires 10
create requests concurrently and awaits `Promise.allSettled(promises)`,
which always fulfills with the array of the 10 settled results; the
oracle `outcomes : Fin 10 → Bool` records, for each of the 10 requests,
whether it fulfilled.  The `forEach` counts the fulfilled ones (rejected
ones are only logged).  If `createdCount > 0` the aggregate success
message is set and `fetchUsers()` is triggered; otherwise the aggregate
failure message is set and no refresh happens.  The `catch` at line 128
is unreachable on settled results (`allSettled` never rejects and the
aggregation body cannot throw), so the model has no failure path, and
the `finally` clears the loading flag. -/
def handleGenerateTenUsers (s : AppState) (outcomes : Fin 10 → Bool) : AppState × Effects :=
  let results := List.ofFn outcomes
  let createdCount := results.count true
  if createdCount > 0 then
    ({ s with message := generateSuccessText createdCount, isLoading := false },
     { requests := 10, refreshed := true, notices := [generateSuccessText createdCount] })
  else
    ({ s with message := generateFailureText, isLoading := false },
     { requests := 10, refreshed := false, notices := [generateFailureText] })

/-- The fallback text used by mutation handlers for a connectivity
failure (App.js lines 150, 170, 184, 200, 219). -/
def mutationNetworkErrorText : String :=
  "Network Error: Check server connection."

/-- The `trim()` of the input value: drop leading and trailing
whitespace.  Written over the character list so that it reduces by
structural recursion. -/
def jsTrim (s : String) : String :=
  ⟨((s.data.dropWhile Char.isWhitespace).reverse.dropWhile Char.isWhitespace).reverse⟩

/-- `handleAddUser` (App.js lines 139-153).  The oracle is the terminal
outcome of the create request: the created player on success, the caught
error on failure.  An empty trimmed name prevents submission with no
request and no message.  On success the dialog closes, the input clears
and a refresh is triggered; on failure only a message is set — the
dialog is not closed and no refresh happens. -/
def handleAddUser (s : AppState) (result : Except NetErr Player) : AppState × Effects :=
  if jsTrim s.newUserName = "" then (s, {})
  else
    match result with
    | .ok created =>
        let msg := "User \"" ++ created.name ++ "\" added successfully!"
        ({ s with message := msg, newUserName := "", isAddUserModalOpen := false },
         { requests := 1, refreshed := true, notices := [msg] })
    | .error err =>
        let detail :=
          match err.responseDataMessage with
          | some m => m
          | none =>
              if err.message = "Network Error" then mutationNetworkErrorText
              else "Failed to add user."
        let msg := "Error: " ++ detail
        ({ s with message := msg },
         { requests := 1, refreshed := false, notices := [msg] })

/-- The guidance message of `handleClaimPoints` when no user is selected
(App.js line 160). -/
def claimGuidanceText : String :=
  "Please select a user first."

/-- The success message of `handleClaimPoints` (App.js line 166),
embedding the points amount and the player name returned by the service.
The leading characters are the literal bytes of the source string. -/
def claimSuccessText (pointsClaimed : Nat) (updatedUserName : String) : String :=
  "üéâ You claimed " ++ toString pointsClaimed ++ " points for " ++ updatedUserName ++ "!"

/-- The terminal outcome of a claim request: the `updatedUser` and
`pointsClaimed` fields of the response on success, the caught error on
failure. -/
inductive ClaimResult where
  | ok (updatedUser : Player) (pointsClaimed : Nat)
  | error (err : NetErr)
deriving Repr, DecidableEq

/-- `handleClaimPoints` (App.js lines 158-172).  With the selection
absent (empty id) it sets the guidance message and returns before any
request.  Otherwise it issues exactly one claim request; on success it
sets the message embedding the returned name and points amount and
triggers a refresh, on failure it sets a generic failure message
(distinguishing a connectivity failure) and does not retry. -/
def handleClaimPoints (s : AppState) (result : ClaimResult) : AppState × Effects :=
  if s.selectedUserId = "" then
    ({ s with message := claimGuidanceText }, { notices := [claimGuidanceText] })
  else
    match result with
    | .ok updatedUser pointsClaimed =>
        let msg := claimSuccessText pointsClaimed updatedUser.name
        ({ s with message := msg },
         { requests := 1, refreshed := true, notices := [msg] })
    | .error err =>
        let msg := if err.message = "Network Error" then mutationNetworkErrorText
                   else "Failed to claim points."
        ({ s with message := msg },
         { requests := 1, refreshed := false, notices := [msg] })

/-- `handleClearAllScores` (App.js lines 177-188).  The oracle is `none`
for a successful reset request and `some err` for a failure.  Either
way the `finally` closes the confirmation dialog; the message and the
refresh depend on the outcome. -/
def handleClearAllScores (s : AppState) (outcome : Option NetErr) : AppState × Effects :=
  match outcome with
  | none =>
      let msg := "All scores have been cleared successfully."
      ({ s with message := msg, isClearScoresModalOpen := false },
       { requests := 1, refreshed := true, notices := [msg] })
  | some err =>
      let msg := if err.message = "Network Error" then mutationNetworkErrorText
                 else "Failed to clear scores."
      ({ s with message := msg, isClearScoresModalOpen := false },
       { requests := 1, refreshed := false, notices := [msg] })

/-- `handleClearAllUsers` (App.js lines 193-204), same shape as
`handleClearAllScores` with the delete-all request and dialog. -/
def handleClearAllUsers (s : AppState) (outcome : Option NetErr) : AppState × Effects :=
  match outcome with
  | none =>
      let msg := "All users have been deleted."
      ({ s with message := msg, isClearUsersModalOpen := false },
       { requests := 1, refreshed := true, notices := [msg] })
  | some err =>
      let msg := if err.message = "Network Error" then mutationNetworkErrorText
                 else "Failed to delete all users."
      ({ s with message := msg, isClearUsersModalOpen := false },
       { requests := 1, refreshed := false, notices := [msg] })

/-- `handleDeleteUser` (App.js lines 209-223).  A `none` target returns
immediately.  On success the picker dialog closes, the target clears,
the message names the deleted player and a refresh is triggered; on
failure only the message is set.  Either way the `finally` clears the
target, which closes the confirmation dialog the target governs
(App.js line 374). -/
def handleDeleteUser (s : AppState) (outcome : Option NetErr) : AppState × Effects :=
  match s.userToDelete with
  | none => (s, {})
  | some target =>
      match outcome with
      | none =>
          let msg := "User \"" ++ target.name ++ "\" was deleted."
          ({ s with message := msg, isDeleteUserModalOpen := false, userToDelete := none },
           { requests := 1, refreshed := true, notices := [msg] })
      | some err =>
          let msg := if err.message = "Network Error" then mutationNetworkErrorText
                     else "Failed to delete user."
          ({ s with message := msg, userToDelete := none },
           { requests := 1, refreshed := false, notices := [msg] })

/-- The selection control (App.js lines 405-408): a `select` whose
`onChange` sets the selected id.  The control is disabled while the user
list is empty, its only enabled options are the `_id` values of the
current users (the empty placeholder option is itself disabled), and a
`select` element fires a change only for one of its enabled option
values — so the handler can only ever receive an id of the current
list.  Any other id leaves the state unchanged. -/
def selectPlayer (s : AppState) (id : String) : AppState :=
  if s.users.isEmpty then s
  else if id ∈ s.users.map (fun u => u._id) then { s with selectedUserId := id }
  else s

/-- The message/timer fragment of the component state, for the auto-clear
effect (App.js lines 228-233): the current message and the deadline of
the pending `setTimeout`, if one is live.  The effect structure makes it
impossible for two timers to be live at once: each effect run owns at
most one timer and its cleanup clears it. -/
structure NotifState where
  message : String
  deadline : Option Nat
deriving Repr, DecidableEq

/-- One `setMessage(text)` call observed at time `t` (in seconds),
together with the auto-clear effect of App.js lines 228-233.  The effect
has dependency array `[message]`: it re-runs (cleanup of the previous
timer, then `if (message) setTimeout(clear, 4000)`) exactly when the
rendered `message` value changed; a `setMessage` with the value already
held bails out and leaves the pending timer untouched. -/
def setMessageAt (s : NotifState) (t : Nat) (text : String) : NotifState :=
  if text = s.message then s
  else if text = "" then { message := "", deadline := none }
  else { message := text, deadline := some (t + 4) }

/-- The timer firing: at any time `t` past the pending deadline the
timeout has run `setMessage('')` (App.js line 230), clearing the message;
the effect then re-runs on the empty message and starts no new timer. -/
def expireAt (s : NotifState) (t : Nat) : NotifState :=
  match s.deadline with
  | some d => if d ≤ t then { message := "", deadline := none } else s
  | none => s

/-- The message visible at time `t`: the held message unless its pending
timer has already fired. -/
def visibleAt (s : NotifState) (t : Nat) : String :=
  (expireAt s t).message

/-- One completed operation of the client, with the terminal outcome of
the network requests it makes supplied as oracle data.  This is the
alphabet of the state machine whose step function is `applyOp`. -/
inductive Op where
  | fetchSuccess (data : List Player)
  | fetchFailure (err : NetErr)
  | selectPlayerOp (id : String)
  | claimPointsOp (result : ClaimResult)
  | generateTenOp (outcomes : Fin 10 → Bool)
  | addUserOp (result : Except NetErr Player)
  | clearScoresOp (outcome : Option NetErr)
  | clearUsersOp (outcome : Option NetErr)
  | deleteUserOp (outcome : Option NetErr)
  | typeNewUserName (text : String)
  | setAddUserModal (open_ : Bool)
  | setDeleteUserModal (open_ : Bool)
  | setClearScoresModal (open_ : Bool)
  | setClearUsersModal (open_ : Bool)
  | setActionsMenu (open_ : Bool)
  | chooseUserToDelete (target : Option Player)

/-- The step function of the client state machine: each operation of
`Op` applied as the corresponding handler or state setter of App.js. -/
def applyOp (s : AppState) : Op → AppState
  | .fetchSuccess data => fetchUsersSuccess s data
  | .fetchFailure err => fetchUsersFailure s err
  | .selectPlayerOp id => selectPlayer s id
  | .claimPointsOp result => (handleClaimPoints s result).1
  | .generateTenOp outcomes => (handleGenerateTenUsers s outcomes).1
  | .addUserOp result => (handleAddUser s result).1
  | .clearScoresOp outcome => (handleClearAllScores s outcome).1
  | .clearUsersOp outcome => (handleClearAllUsers s outcome).1
  | .deleteUserOp outcome => (handleDeleteUser s outcome).1
  | .typeNewUserName text => { s with newUserName := text }
  | .setAddUserModal b => { s with isAddUserModalOpen := b }
  | .setDeleteUserModal b => { s with isDeleteUserModalOpen := b }
  | .setClearScoresModal b => { s with isClearScoresModalOpen := b }
  | .setClearUsersModal b => { s with isClearUsersModalOpen := b }
  | .setActionsMenu b => { s with isActionsMenuOpen := b }
  | .chooseUserToDelete t => { s with userToDelete := t }

/-- Whether an operation is a successful list fetch. -/
def Op.isFetchSuccess : Op → Bool
  | .fetchSuccess _ => true
  | _ => false

/-! ## Sample data used by witnesses and counterexamples -/

/-- The initial component state: the initial value of every `useState`
hook of `App` (App.js lines 36-50). -/
def initialState : AppState :=
  { users := [], selectedUserId := "", newUserName := "", message := "",
    isLoading := true, error := none,
    isClearScoresModalOpen := false, isClearUsersModalOpen := false,
    isAddUserModalOpen := false, isDeleteUserModalOpen := false,
    userToDelete := none, isActionsMenuOpen := false }

/-- Sample ranked player. -/
def annPlayer : Player := { _id := "a", name := "Ann", points := 50, rank := 1 }

/-- Sample ranked player. -/
def boPlayer : Player := { _id := "b", name := "Bo", points := 30, rank := 2 }

/-- Sample ranked player. -/
def cyPlayer : Player := { _id := "c", name := "Cy", points := 10, rank := 3 }

/-! ## Theorems -/

/-- C3: the podium view is a pure function of the player list; for every
list of rank-ordered players it yields a display sequence of length
`min 3 n`, ordered second-first-third with missing positions dropped
(lists of length 0, 1 and 2 give valid partial podiums), and every
displayed entry is an entry of the input list (it never reads past the
input). -/
theorem podium_display_spec : ∀ (l : List Player),
    (podiumDisplay l).length = min 3 l.length ∧
    (∀ u ∈ podiumDisplay l, u ∈ l) ∧
    (l = [] → podiumDisplay l = []) ∧
    (∀ a, l = [a] → podiumDisplay l = [a]) ∧
    (∀ a b, l = [a, b] → podiumDisplay l = [b, a]) ∧
    (∀ a b c rest, l = a :: b :: c :: rest → podiumDisplay l = [b, a, c]) := by
  intro l
  match l with
  | [] => simp [podiumDisplay, podiumUsers, topThreeUsers, podiumOrder]
  | [a] => simp [podiumDisplay, podiumUsers, topThreeUsers, podiumOrder]
  | [a, b] => simp [podiumDisplay, podiumUsers, topThreeUsers, podiumOrder]
  | a :: b :: c :: rest =>
      refine ⟨?_, ?_, by simp, by simp, by simp, ?_⟩
      · simp [podiumDisplay, podiumUsers, topThreeUsers, podiumOrder]
      · simp [podiumDisplay, podiumUsers, topThreeUsers, podiumOrder]
      · intro a' b' c' rest' h
        cases h
        simp [podiumDisplay, podiumUsers, topThreeUsers, podiumOrder]

/-- Witness for `podium_display_spec` at the three-player list: the
display order is second place, first place, third place. -/
theorem podium_display_spec_witness :
    podiumDisplay [annPlayer, boPlayer, cyPlayer] = [boPlayer, annPlayer, cyPlayer] :=
  (podium_display_spec [annPlayer, boPlayer, cyPlayer]).2.2.2.2.2
    annPlayer boPlayer cyPlayer [] rfl

/-- C2: after every successful list fetch, a non-empty result whose
entries do not include the prior selection (or with the prior selection
absent) snaps the selection to the first fetched id, and an empty result
clears the selection. -/
theorem fetch_selection_snap :
    (∀ (s : AppState) (first : Player) (rest : List Player),
      (s.selectedUserId = "" ∨ ∀ u ∈ first :: rest, u._id ≠ s.selectedUserId) →
      (fetchUsersSuccess s (first :: rest)).selectedUserId = first._id) ∧
    (∀ s : AppState, (fetchUsersSuccess s []).selectedUserId = "") := by
  constructor
  · intro s first rest h
    simp only [fetchUsersSuccess]
    rcases h with h | h
    · simp [h]
    · have hnone : ((first :: rest).find? (fun u => u._id == s.selectedUserId)).isNone = true := by
        rw [Option.isNone_iff_eq_none, List.find?_eq_none]
        intro x hx
        simp [h x hx]
      simp [hnone]
  · intro s
    rfl

/-- Witness for `fetch_selection_snap`: fetching the sample list over the
initial (absent) selection selects the first player. -/
theorem fetch_selection_snap_witness :
    (fetchUsersSuccess initialState [annPlayer, boPlayer]).selectedUserId = annPlayer._id :=
  fetch_selection_snap.1 initialState annPlayer [boPlayer] (Or.inl rfl)

/-- C10: a successful list fetch whose non-empty result still contains
the previously selected id leaves the selection unchanged. -/
theorem fetch_keeps_valid_selection :
    ∀ (s : AppState) (first : Player) (rest : List Player),
      s.selectedUserId ≠ "" →
      (∃ u ∈ first :: rest, u._id = s.selectedUserId) →
      (fetchUsersSuccess s (first :: rest)).selectedUserId = s.selectedUserId := by
  intro s first rest hne hmem
  simp only [fetchUsersSuccess]
  have hsome : ((first :: rest).find? (fun u => u._id == s.selectedUserId)).isNone = false := by
    simp only [Option.isNone_eq_false_iff, List.find?_isSome]
    obtain ⟨u, hu, hid⟩ := hmem
    exact ⟨u, hu, by simp [hid]⟩
  simp [hsome, hne]

/-- Witness for `fetch_keeps_valid_selection`: refetching a list that
still contains the selected id `"b"` keeps the selection at `"b"`. -/
theorem fetch_keeps_valid_selection_witness :
    (fetchUsersSuccess { initialState with selectedUserId := "b" }
      [annPlayer, boPlayer]).selectedUserId =
      ({ initialState with selectedUserId := "b" } : AppState).selectedUserId :=
  fetch_keeps_valid_selection { initialState with selectedUserId := "b" }
    annPlayer [boPlayer] (by decide) ⟨boPlayer, by simp, rfl⟩

/-- C1: for every outcome vector of the 10 concurrent create requests
(any number k of successes), the bulk generator issues exactly 10
requests and aggregates over all of their terminal states, sets exactly
one aggregate message (the success summary naming k when k is positive,
the total-failure summary when k is zero), triggers a refresh exactly
when k is positive, leaves the error banner untouched (no error escapes
the handler), and ends with the loading flag cleared. -/
theorem generate_ten_spec : ∀ (s : AppState) (outcomes : Fin 10 → Bool),
    (handleGenerateTenUsers s outcomes).2.requests = 10 ∧
    (handleGenerateTenUsers s outcomes).2.notices.length = 1 ∧
    ((handleGenerateTenUsers s outcomes).2.refreshed = true ↔
      0 < (List.ofFn outcomes).count true) ∧
    (handleGenerateTenUsers s outcomes).1.message =
      (if 0 < (List.ofFn outcomes).count true
       then generateSuccessText ((List.ofFn outcomes).count true)
       else generateFailureText) ∧
    (handleGenerateTenUsers s outcomes).1.error = s.error ∧
    (handleGenerateTenUsers s outcomes).1.isLoading = false := by
  intro s outcomes
  simp only [handleGenerateTenUsers, gt_iff_lt]
  by_cases h : 0 < (List.ofFn outcomes).count true
  · rw [if_pos h, if_pos h]
    exact ⟨rfl, rfl, ⟨fun _ => h, fun _ => rfl⟩, rfl, rfl, rfl⟩
  · rw [if_neg h, if_neg h]
    exact ⟨rfl, rfl, ⟨fun hc => absurd hc Bool.false_ne_true, fun hc => absurd hc h⟩,
      rfl, rfl, rfl⟩

/-- C7: invoking the claim handler while the selection is absent issues
no network request and sets the guidance message. -/
theorem claim_requires_selection : ∀ (s : AppState) (result : ClaimResult),
    s.selectedUserId = "" →
    (handleClaimPoints s result).2.requests = 0 ∧
    (handleClaimPoints s result).1.message = claimGuidanceText := by
  intro s result h
  simp [handleClaimPoints, h]

/-- Witness for `claim_requires_selection` at the initial state (empty
selection) and an arbitrary oracle outcome. -/
theorem claim_requires_selection_witness :
    (handleClaimPoints initialState (.error ⟨"Network Error", none⟩)).2.requests = 0 ∧
    (handleClaimPoints initialState (.error ⟨"Network Error", none⟩)).1.message = claimGuidanceText :=
  claim_requires_selection initialState (.error ⟨"Network Error", none⟩) rfl

/-- C8: with a selection present, a successful claim sets a message that
contains the points amount returned by the service and the returned
player name, issues exactly one request and triggers a refresh; a failed
claim sets a generic failure message (connectivity-specific when the
error is a network error), issues exactly one request and does not retry
or refresh. -/
theorem claim_outcome_spec : ∀ (s : AppState),
    s.selectedUserId ≠ "" →
    (∀ (u : Player) (p : Nat),
      (∃ pre mid post, (handleClaimPoints s (.ok u p)).1.message =
        pre ++ toString p ++ mid ++ u.name ++ post) ∧
      (handleClaimPoints s (.ok u p)).2.refreshed = true ∧
      (handleClaimPoints s (.ok u p)).2.requests = 1) ∧
    (∀ err : NetErr,
      (handleClaimPoints s (.error err)).1.message =
        (if err.message = "Network Error" then mutationNetworkErrorText
         else "Failed to claim points.") ∧
      (handleClaimPoints s (.error err)).2.refreshed = false ∧
      (handleClaimPoints s (.error err)).2.requests = 1) := by
  intro s h
  constructor
  · intro u p
    refine ⟨⟨"üéâ You claimed ", " points for ", "!", ?_⟩, ?_, ?_⟩ <;>
      simp [handleClaimPoints, h, claimSuccessText]
  · intro err
    refine ⟨?_, ?_, ?_⟩ <;> simp [handleClaimPoints, h]

/-- Witness for `claim_outcome_spec`: claiming for the selected id `"a"`
with the service returning name `"Ann"` and 7 points claimed yields a
message containing `"7"` and `"Ann"`, and a refresh. -/
theorem claim_outcome_spec_witness :
    (∃ pre mid post,
      (handleClaimPoints { initialState with users := [annPlayer, boPlayer], selectedUserId := "a" }
        (.ok annPlayer 7)).1.message = pre ++ toString 7 ++ mid ++ annPlayer.name ++ post) ∧
    (handleClaimPoints { initialState with users := [annPlayer, boPlayer], selectedUserId := "a" }
      (.ok annPlayer 7)).2.refreshed = true :=
  ⟨((claim_outcome_spec { initialState with users := [annPlayer, boPlayer], selectedUserId := "a" }
      (by decide)).1 annPlayer 7).1,
   ((claim_outcome_spec { initialState with users := [annPlayer, boPlayer], selectedUserId := "a" }
      (by decide)).1 annPlayer 7).2.1⟩

/-- C6: the selection control sets the selection to an id only when that
id belongs to the current user list (otherwise the state is unchanged),
and on every non-empty list an id not present in the list leaves the
state unchanged. -/
theorem select_player_spec : ∀ (s : AppState) (id : String),
    ((id ∈ s.users.map (fun u => u._id) ∧ (selectPlayer s id).selectedUserId = id) ∨
      selectPlayer s id = s) ∧
    (s.users ≠ [] → id ∉ s.users.map (fun u => u._id) → selectPlayer s id = s) := by
  intro s id
  constructor
  · by_cases h0 : s.users.isEmpty
    · right
      simp [selectPlayer, h0]
    · by_cases h1 : id ∈ s.users.map (fun u => u._id)
      · left
        exact ⟨h1, by simp [selectPlayer, h0, h1]⟩
      · right
        simp [selectPlayer, h0, h1]
  · intro hne hnotin
    have h0 : ¬ s.users.isEmpty = true := by
      simpa [List.isEmpty_iff] using hne
    simp [selectPlayer, h0, hnotin]

/-- Witness for `select_player_spec`: on a one-player list, selecting the
unknown id `"zz"` leaves the state unchanged. -/
theorem select_player_spec_witness :
    selectPlayer { initialState with users := [annPlayer], selectedUserId := "a" } "zz" =
      { initialState with users := [annPlayer], selectedUserId := "a" } :=
  (select_player_spec { initialState with users := [annPlayer], selectedUserId := "a" } "zz").2
    (by decide) (by decide)

/-- A state with the add-player dialog open and a pending name typed,
reached by opening the dialog and typing into the input. -/
def addFailureState : AppState :=
  { initialState with
    newUserName := "Swift Jaguar", isAddUserModalOpen := true, isLoading := false }

/-- A name-collision rejection as surfaced by the service. -/
def duplicateNameErr : NetErr :=
  { message := "Request failed with status code 400",
    responseDataMessage := some "A user with this name already exists." }

/-- C4 counterexample: the add-player confirm handler does not close its
governing dialog when the issued request fails — after the request
reaches its failing terminal state the dialog is still open. -/
theorem add_user_dialog_stays_open :
    addFailureState.isAddUserModalOpen = true ∧
    (handleAddUser addFailureState (.error duplicateNameErr)).2.requests = 1 ∧
    (handleAddUser addFailureState (.error duplicateNameErr)).1.isAddUserModalOpen = true := by
  decide

/-- C4 amended: the three destructive confirm handlers (reset all
scores, delete all players, delete one player) close their governing
dialog after the request reaches a terminal state regardless of the
outcome, and set exactly one outcome message; the add-player handler
sets exactly one outcome message in both cases but closes its dialog
only on success, leaving it open on failure. -/
theorem confirm_dialog_spec :
    (∀ (s : AppState) (o : Option NetErr),
      (handleClearAllScores s o).1.isClearScoresModalOpen = false ∧
      (handleClearAllScores s o).2.notices.length = 1) ∧
    (∀ (s : AppState) (o : Option NetErr),
      (handleClearAllUsers s o).1.isClearUsersModalOpen = false ∧
      (handleClearAllUsers s o).2.notices.length = 1) ∧
    (∀ (s : AppState) (target : Player) (o : Option NetErr),
      s.userToDelete = some target →
      (handleDeleteUser s o).1.userToDelete = none ∧
      (handleDeleteUser s o).2.notices.length = 1) ∧
    (∀ (s : AppState) (r : Except NetErr Player),
      jsTrim s.newUserName ≠ "" →
      (handleAddUser s r).2.notices.length = 1 ∧
      (∀ created, r = .ok created → (handleAddUser s r).1.isAddUserModalOpen = false) ∧
      (∀ e, r = .error e → (handleAddUser s r).1.isAddUserModalOpen = s.isAddUserModalOpen)) := by
  refine ⟨?_, ?_, ?_, ?_⟩
  · intro s o
    cases o <;> exact ⟨rfl, rfl⟩
  · intro s o
    cases o <;> exact ⟨rfl, rfl⟩
  · intro s target o h
    cases o <;> simp [handleDeleteUser, h]
  · intro s r h
    cases r with
    | ok created => refine ⟨?_, ?_, ?_⟩ <;> simp [handleAddUser, h]
    | error e => refine ⟨?_, ?_, ?_⟩ <;> simp [handleAddUser, h]

/-- Witness for `confirm_dialog_spec`: a failing single-player delete
still clears the delete target, closing the confirmation dialog it
governs. -/
theorem confirm_dialog_spec_witness :
    (handleDeleteUser { initialState with userToDelete := some boPlayer }
      (some ⟨"Network Error", none⟩)).1.userToDelete = none ∧
    (handleAddUser addFailureState (.ok annPlayer)).1.isAddUserModalOpen = false :=
  ⟨(confirm_dialog_spec.2.2.1 { initialState with userToDelete := some boPlayer }
      boPlayer (some ⟨"Network Error", none⟩) rfl).1,
   (confirm_dialog_spec.2.2.2 addFailureState (.ok annPlayer) (by decide)).2.1
      annPlayer rfl⟩

/-- The selection control never touches the error banner. -/
lemma selectPlayer_error_eq (s : AppState) (id : String) :
    (selectPlayer s id).error = s.error := by
  by_cases h0 : s.users.isEmpty <;> by_cases h1 : id ∈ s.users.map (fun u => u._id) <;>
    simp [selectPlayer, h0, h1]

/-- The claim handler never touches the error banner. -/
lemma handleClaimPoints_error_eq (s : AppState) (r : ClaimResult) :
    (handleClaimPoints s r).1.error = s.error := by
  cases r <;> by_cases h : s.selectedUserId = "" <;> simp [handleClaimPoints, h]

/-- The bulk generator leaves the error banner unchanged (its `catch` is
unreachable on settled results). -/
lemma handleGenerateTenUsers_error_eq (s : AppState) (outcomes : Fin 10 → Bool) :
    (handleGenerateTenUsers s outcomes).1.error = s.error := by
  simp only [handleGenerateTenUsers]
  split <;> rfl

/-- The add-user handler never touches the error banner. -/
lemma handleAddUser_error_eq (s : AppState) (r : Except NetErr Player) :
    (handleAddUser s r).1.error = s.error := by
  cases r <;> by_cases h : jsTrim s.newUserName = "" <;> simp [handleAddUser, h]

/-- The reset-scores handler never touches the error banner. -/
lemma handleClearAllScores_error_eq (s : AppState) (o : Option NetErr) :
    (handleClearAllScores s o).1.error = s.error := by
  cases o <;> rfl

/-- The delete-all handler never touches the error banner. -/
lemma handleClearAllUsers_error_eq (s : AppState) (o : Option NetErr) :
    (handleClearAllUsers s o).1.error = s.error := by
  cases o <;> rfl

/-- The single-delete handler never touches the error banner. -/
lemma handleDeleteUser_error_eq (s : AppState) (o : Option NetErr) :
    (handleDeleteUser s o).1.error = s.error := by
  cases h : s.userToDelete <;> cases o <;> simp [handleDeleteUser, h]

/-- C5: a failed list fetch preserves the held player list and the
selection; the error banner it sets is the fixed connectivity text for a
network error and otherwise surfaces the failure detail text, and the
two shapes never coincide; over every modelled operation of the client,
a standing error banner can only be cleared by a successful list fetch,
which always clears it. -/
theorem fetch_failure_spec :
    (∀ (s : AppState) (err : NetErr),
      (fetchUsersFailure s err).users = s.users ∧
      (fetchUsersFailure s err).selectedUserId = s.selectedUserId ∧
      (err.message = "Network Error" →
        (fetchUsersFailure s err).error = some fetchNetworkErrorText) ∧
      (err.message ≠ "Network Error" →
        (fetchUsersFailure s err).error = some ("An error occurred: " ++ err.message))) ∧
    (∀ m : String, fetchNetworkErrorText ≠ "An error occurred: " ++ m) ∧
    (∀ (s : AppState) (op : Op),
      s.error.isSome → op.isFetchSuccess = false → ((applyOp s op).error).isSome) ∧
    (∀ (s : AppState) (data : List Player), (fetchUsersSuccess s data).error = none) := by
  refine ⟨?_, ?_, ?_, ?_⟩
  · intro s err
    refine ⟨?_, ?_, ?_, ?_⟩ <;> by_cases h : err.message = "Network Error" <;>
      simp [fetchUsersFailure, fetchOtherErrorText, h]
  · intro m h
    have h2 : "An error occurred: ".data ++ m.data = fetchNetworkErrorText.data := by
      have h3 := congrArg String.data h.symm
      rw [String.data_append] at h3
      exact h3
    exact absurd (show "An error occurred: ".data <+: fetchNetworkErrorText.data from ⟨m.data, h2⟩)
      (by decide)
  · intro s op h hop
    cases op with
    | fetchSuccess data => simp [Op.isFetchSuccess] at hop
    | fetchFailure err =>
        simp only [applyOp, fetchUsersFailure]
        split <;> simp
    | selectPlayerOp id => simpa [applyOp, selectPlayer_error_eq] using h
    | claimPointsOp r => simpa [applyOp, handleClaimPoints_error_eq] using h
    | generateTenOp outcomes => simpa [applyOp, handleGenerateTenUsers_error_eq] using h
    | addUserOp r => simpa [applyOp, handleAddUser_error_eq] using h
    | clearScoresOp o => simpa [applyOp, handleClearAllScores_error_eq] using h
    | clearUsersOp o => simpa [applyOp, handleClearAllUsers_error_eq] using h
    | deleteUserOp o => simpa [applyOp, handleDeleteUser_error_eq] using h
    | typeNewUserName t => simpa [applyOp] using h
    | setAddUserModal b => simpa [applyOp] using h
    | setDeleteUserModal b => simpa [applyOp] using h
    | setClearScoresModal b => simpa [applyOp] using h
    | setClearUsersModal b => simpa [applyOp] using h
    | setActionsMenu b => simpa [applyOp] using h
    | chooseUserToDelete t => simpa [applyOp] using h
  · intro s data
    cases data <;> rfl

/-- Witness for `fetch_failure_spec`: a non-network failure surfaces its
detail text, and a standing error banner survives a claim operation. -/
theorem fetch_failure_spec_witness :
    (fetchUsersFailure initialState ⟨"Request failed with status code 500", none⟩).error =
      some ("An error occurred: " ++ "Request failed with status code 500") ∧
    ((applyOp { initialState with error := some fetchNetworkErrorText }
      (.claimPointsOp (.error ⟨"boom", none⟩))).error).isSome :=
  ⟨(fetch_failure_spec.1 initialState ⟨"Request failed with status code 500", none⟩).2.2.2
      (by decide),
   fetch_failure_spec.2.2.1 { initialState with error := some fetchNetworkErrorText }
      (.claimPointsOp (.error ⟨"boom", none⟩)) rfl rfl⟩

/-- C9 counterexample: two settings of the same text within the window.
The second setting (at time 2, within 4 seconds of the first at time 0)
does not change the `message` value, so the auto-clear effect with
dependency `[message]` does not re-run: the first timer survives
(deadline still 4) and fires at the end of the first window, after which
the second message is no longer visible. -/
theorem timer_same_text_cex :
    (setMessageAt (setMessageAt ⟨"", none⟩ 0 "Saved") 2 "Saved").deadline = some 4 ∧
    visibleAt (setMessageAt (setMessageAt ⟨"", none⟩ 0 "Saved") 2 "Saved") 4 = "" ∧
    ("" : String) ≠ "Saved" := by
  decide

/-- C9 amended: for every pair of notification settings where the second
occurs within 4 seconds of the first and carries a different (non-empty)
text, the first timer is replaced by the second timer (only one deadline
is ever pending, by the shape of `NotifState`), and only the second
message is visible once the first window has elapsed and until the
second window elapses. -/
theorem timer_replacement_spec :
    ∀ (s : NotifState) (m1 m2 : String) (t1 t2 t : Nat),
      m1 ≠ s.message → m1 ≠ "" → m2 ≠ m1 → m2 ≠ "" →
      t2 < t1 + 4 → t1 + 4 ≤ t → t < t2 + 4 →
      (setMessageAt s t1 m1).deadline = some (t1 + 4) ∧
      (setMessageAt (setMessageAt s t1 m1) t2 m2).deadline = some (t2 + 4) ∧
      visibleAt (setMessageAt (setMessageAt s t1 m1) t2 m2) t = m2 := by
  intro s m1 m2 t1 t2 t h1 h2 h3 h4 h5 h6 h7
  have e1 : setMessageAt s t1 m1 = ⟨m1, some (t1 + 4)⟩ := by
    simp [setMessageAt, h1, h2]
  have e2 : setMessageAt (⟨m1, some (t1 + 4)⟩ : NotifState) t2 m2 = ⟨m2, some (t2 + 4)⟩ := by
    simp [setMessageAt, h3, h4]
  rw [e1, e2]
  have hle : ¬ (t2 + 4 ≤ t) := by omega
  exact ⟨rfl, rfl, by simp [visibleAt, expireAt, hle]⟩

/-- Witness for `timer_replacement_spec`: setting `"First"` at time 0 and
`"Second"` at time 2 leaves `"Second"` visible at time 4. -/
theorem timer_replacement_spec_witness :
    visibleAt (setMessageAt (setMessageAt ⟨"", none⟩ 0 "First") 2 "Second") 4 = "Second" :=
  (timer_replacement_spec ⟨"", none⟩ "First" "Second" 0 2 4 (by decide) (by decide)
    (by decide) (by decide) (by decide) (by decide) (by decide)).2.2
